import Mathlib

/-!
Verification of the mainstay attestation service state machine
(`attestservice.go`, package `attestation`, and its config surface).

The driver is embedded shallowly: each Go state handler becomes a pure
function from the service state and an environment record (holding the
results the wallet / store / signer RPCs return on this tick) to the new
service state together with a list of observable events (store updates,
wallet broadcasts and queries, signer messages).  Durations are integers
counting nanoseconds, exactly as Go's `time.Duration`.
-/

namespace Mainstay

/-- 32-byte hash (`chainhash.Hash`), abstracted as a natural number.
The zero value `chainhash.Hash\x7b\x7d` is `0`. -/
abbrev Hash := Nat

/-- Go `error` values (`errors.New` strings). -/
abbrev Err := String

/-- A bitcoin transaction (`wire.MsgTx`), abstracted by its content;
`TxHash` is modelled by the `hash` field. -/
structure Tx where
  hash : Hash
deriving DecidableEq

/-- `Tx.TxHash()`: the transaction id of a transaction. -/
def Tx.txHash (t : Tx) : Hash := t.hash

/-- Result of the wallet `GetTransaction` RPC: block inclusion metadata. -/
structure WalletTx where
  blockHash : String
  time : Int
deriving DecidableEq

/-- Modelled from the spec: `models.Commitment` (missing from src/) —
a Merkle commitment, identified by its Merkle root `GetCommitmentHash()`. -/
structure Commitment where
  commitmentHash : Hash
deriving DecidableEq

/-- `Commitment.GetCommitmentHash()`. -/
def Commitment.getCommitmentHash (c : Commitment) : Hash := c.commitmentHash

/-- Modelled from the spec: `models.Attestation` (missing from src/) —
txid, commitment, raw tx, confirmed flag, block-inclusion metadata. -/
structure Attestation where
  txid : Hash
  commitment : Commitment
  tx : Tx
  confirmed : Bool
  blockHash : String
  blockTime : Int
deriving DecidableEq

/-- `Attestation.CommitmentHash()`: the root of the attested commitment. -/
def Attestation.commitmentHash (a : Attestation) : Hash :=
  a.commitment.getCommitmentHash

/-- Modelled from the spec: `models.NewAttestationDefault()` (missing from
src/) — a fresh default attestation, not yet confirmed, zero hashes. -/
def NewAttestationDefault : Attestation :=
  { txid := 0, commitment := { commitmentHash := 0 }, tx := { hash := 0 },
    confirmed := false, blockHash := "", blockTime := 0 }

/-- Modelled from the spec: `models.NewAttestation(txid, commitment)`
(missing from src/) — a fresh attestation for a given txid and commitment,
not yet confirmed. -/
def NewAttestation (txid : Hash) (c : Commitment) : Attestation :=
  { txid := txid, commitment := c, tx := { hash := 0 },
    confirmed := false, blockHash := "", blockTime := 0 }

/-- `Attestation.SetCommitment`. -/
def Attestation.setCommitment (a : Attestation) (c : Commitment) : Attestation :=
  { a with commitment := c }

/-- Modelled from the spec: `Attestation.UpdateInfo(walletTx)` (missing from
src/) — copy the block-inclusion metadata from the wallet transaction. -/
def Attestation.updateInfo (a : Attestation) (w : WalletTx) : Attestation :=
  { a with blockHash := w.blockHash, blockTime := w.time }

/-- A wallet unspent (`btcjson.ListUnspentResult`), abstracted by the txid
its `TxID` string parses to. -/
structure Unspent where
  txid : Hash
deriving DecidableEq

/-- Attestation state type (`AttestationState`). -/
inductive AttestationState
  | ASTATE_ERROR
  | ASTATE_INIT
  | ASTATE_NEXT_COMMITMENT
  | ASTATE_NEW_ATTESTATION
  | ASTATE_SIGN_ATTESTATION
  | ASTATE_PRE_SEND_STORE
  | ASTATE_SEND_ATTESTATION
  | ASTATE_AWAIT_CONFIRMATION
  | ASTATE_HANDLE_UNCONFIRMED
deriving DecidableEq

open AttestationState

/-- error / warning consts -/
def ERROR_UNSPENT_NOT_FOUND : Err := "No valid unspent found"

def WARNING_INVALID_ATIME_NEW_ATTESTATION_ARG : String :=
  "Warning - Invalid new attestation time argument"

def WARNING_INVALID_ATIME_HANDLE_UNCONFIRMED_ARG : String :=
  "Warning - Invalid handle unconfirmed time argument"

/-- One nanosecond is 1; `time.Second`. -/
def second : Int := 1000000000

/-- `time.Minute`. -/
def minute : Int := 60 * second

/-- fixed waiting time between states -/
def ATIME_FIXED : Int := 5 * second

/-- waiting time for sigs to arrive from multisig nodes -/
def ATIME_SIGS : Int := 1 * minute

/-- waiting time between attempts to check whether an attestation confirmed -/
def ATIME_CONFIRMATION : Int := 15 * minute

/-- default waiting time between consecutive attestations -/
def DEFAULT_ATIME_NEW_ATTESTATION : Int := 60 * minute

/-- default waiting time until handling an unconfirmed attestation -/
def DEFAULT_ATIME_HANDLE_UNCONFIRMED : Int := 60 * minute

/-- The timing schedule globals `atimeNewAttestation` and
`atimeHandleUnconfirmed`, set once by `NewAttestService`. -/
structure AttestParams where
  atimeNewAttestation : Int
  atimeHandleUnconfirmed : Int
deriving DecidableEq

/-- The mutable service state: the `AttestService` fields `state`,
`attestation`, `errorState`, `isRegtest`, together with the process
globals `attestDelay` and `confirmTime`. -/
structure AttestService where
  state : AttestationState
  attestation : Attestation
  errorState : Option Err
  isRegtest : Bool
  attestDelay : Int
  confirmTime : Int
deriving DecidableEq

/-- Observable effects of one tick, in call order: store updates
(`server.UpdateLatestAttestation`), wallet broadcasts
(`attester.sendAttestation`), wallet queries, signer messages, fee reset.
`nilDeref` marks a Go runtime crash: a discarded wallet error leaves a nil
pointer that the handler dereferences, so the process dies and the trace
ends at this event. -/
inductive Event
  | updateLatest (att : Attestation)
  | broadcast (tx : Tx)
  | queryTx (txid : Hash)
  | queryRawTx (txid : Hash)
  | sendConfirmedHash (h : Hash)
  | sendNewHash (h : Hash)
  | sendNewTx (tx : Tx)
  | resetFee
  | nilDeref
deriving DecidableEq

/-- The results the external collaborators (wallet, store, signers, clock)
return on one tick.  Go multi-returns `(value, error)` are pairs; a call
made at most once per tick is a plain field.  For the pointer-returning
wallet calls `GetRawTransaction` and `GetTransaction` the btcd client
returns a nil pointer exactly when the error is non-nil, so handlers may
only use the first component when the second is `none`; a handler that
dereferences the result of an errored call crashes (`Event.nilDeref`). -/
structure Env where
  now : Int
  getUnconfirmedTx : (Bool × Hash) × Option Err
  findLastUnspent : (Bool × Unspent) × Option Err
  findTopupUnspent : (Bool × Unspent) × Option Err
  getAttestationCommitment : Commitment × Option Err
  getClientCommitment : Commitment × Option Err
  getLatestAttestationCommitmentHash : Hash × Option Err
  updateLatestAttestation : Option Err
  getRawTransaction : Tx × Option Err
  getTransaction : WalletTx × Option Err
  getNextAttestationKey : Nat × Option Err
  getNextAttestationAddr : Nat × Option Err
  importAttestationAddr : Option Err
  createAttestation : Tx × Option Err
  getSigs : List (List Nat)
  signAttestation : Tx × Option Err
  sendAttestation : Hash × Option Err
  bumpAttestationFees : Tx × Option Err

/-- `setFailure`: if there is an error, store it in `errorState`, move to
`ASTATE_ERROR` and return true; otherwise leave the state unchanged. -/
def setFailure (s : AttestService) (err : Option Err) : AttestService × Bool :=
  match err with
  | some e => ({ s with errorState := some e, state := ASTATE_ERROR }, true)
  | none => (s, false)

/-- `doStateError`: print the error state and re-initiate attestation. -/
def doStateError (s : AttestService) : AttestService × List Event :=
  ({ s with state := ASTATE_INIT }, [])

/-- `stateInitUnconfirmed`: an unconfirmed transaction was found in the
mempool; fetch attestation information and await its confirmation.  The
`GetRawTransaction` error is discarded (`rawTx, _ :=`): on an errored call
`rawTx` is nil and `*rawTx.MsgTx()` (line 182) dereferences it, so the
process crashes with the attestation assigned but the state and the error
state untouched. -/
def stateInitUnconfirmed (s : AttestService) (env : Env) (unconfirmedTxid : Hash) :
    AttestService × List Event :=
  match env.getAttestationCommitment.2 with
  | some e => ((setFailure s (some e)).1, [])
  | none =>
    let att := NewAttestation unconfirmedTxid env.getAttestationCommitment.1
    match env.getRawTransaction.2 with
    | some _ =>
      ({ s with attestation := att },
       [Event.queryRawTx unconfirmedTxid, Event.nilDeref])
    | none =>
      let att := { att with tx := env.getRawTransaction.1 }
      ({ s with attestation := att, state := ASTATE_AWAIT_CONFIRMATION,
                confirmTime := env.now },
       [Event.queryRawTx unconfirmedTxid])

/-- `stateInitUnspent`: an unspent transaction was found in the wallet; if
it is a previous attestation, update the database, then initiate a new
attestation and inform signers.  The `GetRawTransaction` and
`GetTransaction` errors are discarded (`rawTx, _ :=` and `walletTx, _ :=`):
on an errored call the result is nil and lines 204-205 dereference it, so
the process crashes with the attestation fields assigned so far and the
state and error state untouched. -/
def stateInitUnspent (s : AttestService) (env : Env) (unspent : Unspent) :
    AttestService × List Event :=
  let unspentTxid := unspent.txid
  match env.getAttestationCommitment.2 with
  | some e => ((setFailure s (some e)).1, [])
  | none =>
    let commitment := env.getAttestationCommitment.1
    if commitment.getCommitmentHash ≠ 0 then
      let att := NewAttestation unspentTxid commitment
      let att := { att with confirmed := true }
      match env.getRawTransaction.2 with
      | some _ =>
        ({ s with attestation := att },
         [Event.queryRawTx unspentTxid, Event.nilDeref])
      | none =>
        let att := { att with tx := env.getRawTransaction.1 }
        match env.getTransaction.2 with
        | some _ =>
          ({ s with attestation := att },
           [Event.queryRawTx unspentTxid, Event.queryTx unspentTxid,
            Event.nilDeref])
        | none =>
          let att := att.updateInfo env.getTransaction.1
          let s1 := { s with attestation := att }
          let evs := [Event.queryRawTx unspentTxid, Event.queryTx unspentTxid,
            Event.updateLatest att]
          match env.updateLatestAttestation with
          | some e => ((setFailure s1 (some e)).1, evs)
          | none =>
            let confirmedHash := s1.attestation.commitmentHash
            ({ s1 with state := ASTATE_NEXT_COMMITMENT },
             evs ++ [Event.sendConfirmedHash confirmedHash])
    else
      let s1 := { s with attestation := NewAttestationDefault }
      let confirmedHash := s1.attestation.commitmentHash
      ({ s1 with state := ASTATE_NEXT_COMMITMENT },
       [Event.sendConfirmedHash confirmedHash])

/-- `stateInitWalletFailure`: neither unconfirmed nor unspent found;
log and remain at `ASTATE_INIT`. -/
def stateInitWalletFailure (s : AttestService) : AttestService × List Event :=
  ({ s with state := ASTATE_INIT }, [])

/-- `doStateInit`: check for unconfirmed or unspent transactions in the
client and dispatch accordingly. -/
def doStateInit (s : AttestService) (env : Env) : AttestService × List Event :=
  match env.getUnconfirmedTx.2 with
  | some e => ((setFailure s (some e)).1, [])
  | none =>
    if env.getUnconfirmedTx.1.1 then
      stateInitUnconfirmed s env env.getUnconfirmedTx.1.2
    else
      match env.findLastUnspent.2 with
      | some e => ((setFailure s (some e)).1, [])
      | none =>
        if env.findLastUnspent.1.1 then
          stateInitUnspent s env env.findLastUnspent.1.2
        else
          stateInitWalletFailure s

/-- `doStateNextCommitment`: get the latest commitment from the server; if
already attested sleep for `atimeNewAttestation`, else send the new hash to
signers and initialise a new attestation. -/
def doStateNextCommitment (P : AttestParams) (s : AttestService) (env : Env) :
    AttestService × List Event :=
  match env.getClientCommitment.2 with
  | some e => ((setFailure s (some e)).1, [])
  | none =>
    let latestCommitment := env.getClientCommitment.1
    let latestCommitmentHash := latestCommitment.getCommitmentHash
    if latestCommitmentHash = s.attestation.commitmentHash then
      ({ s with attestDelay := P.atimeNewAttestation }, [])
    else
      let att := NewAttestationDefault.setCommitment latestCommitment
      ({ s with attestation := att, state := ASTATE_NEW_ATTESTATION },
       [Event.sendNewHash latestCommitmentHash])

/-- `doStateNewAttestation`: derive the next attestation address, import
it, build the unsigned transaction from the last unspent (plus topup) and
publish it to signers.  The `GetNextAttestationAddr` error is discarded
(`paytoaddr, _ :=`). -/
def doStateNewAttestation (s : AttestService) (env : Env) : AttestService × List Event :=
  match env.getNextAttestationKey.2 with
  | some e => ((setFailure s (some e)).1, [])
  | none =>
    match env.importAttestationAddr with
    | some e => ((setFailure s (some e)).1, [])
    | none =>
      match env.findLastUnspent.2 with
      | some e => ((setFailure s (some e)).1, [])
      | none =>
        if env.findLastUnspent.1.1 then
          match env.findTopupUnspent.2 with
          | some e => ((setFailure s (some e)).1, [])
          | none =>
            match env.createAttestation.2 with
            | some e => ((setFailure s (some e)).1, [])
            | none =>
              let newTx := env.createAttestation.1
              let att := { s.attestation with tx := newTx }
              ({ s with attestation := att, state := ASTATE_SIGN_ATTESTATION,
                        attestDelay := ATIME_SIGS },
               [Event.sendNewTx newTx])
        else
          ((setFailure s (some ERROR_UNSPENT_NOT_FOUND)).1, [])

/-- `doStateSignAttestation`: collect signatures, fetch the last confirmed
commitment, sign the attestation transaction and recompute its txid. -/
def doStateSignAttestation (s : AttestService) (env : Env) : AttestService × List Event :=
  match env.getLatestAttestationCommitmentHash.2 with
  | some e => ((setFailure s (some e)).1, [])
  | none =>
    match env.signAttestation.2 with
    | some e => ((setFailure s (some e)).1, [])
    | none =>
      let att := { s.attestation with tx := env.signAttestation.1 }
      let att := { att with txid := att.tx.txHash }
      ({ s with attestation := att, state := ASTATE_PRE_SEND_STORE }, [])

/-- `doStatePreSendStore`: store the unconfirmed attestation to the server
prior to sending. -/
def doStatePreSendStore (s : AttestService) (env : Env) : AttestService × List Event :=
  match env.updateLatestAttestation with
  | some e => ((setFailure s (some e)).1, [Event.updateLatest s.attestation])
  | none =>
    ({ s with state := ASTATE_SEND_ATTESTATION }, [Event.updateLatest s.attestation])

/-- `doStateSendAttestation`: broadcast the attestation transaction through
the client to the network; start the confirmation timer. -/
def doStateSendAttestation (s : AttestService) (env : Env) : AttestService × List Event :=
  let evs := [Event.broadcast s.attestation.tx]
  match env.sendAttestation.2 with
  | some e => ((setFailure s (some e)).1, evs)
  | none =>
    let att := { s.attestation with txid := env.sendAttestation.1 }
    ({ s with attestation := att, state := ASTATE_AWAIT_CONFIRMATION,
              attestDelay := ATIME_CONFIRMATION, confirmTime := env.now }, evs)

/-- `doStateAwaitConfirmation`: if unconfirmed for too long move to
`ASTATE_HANDLE_UNCONFIRMED`; otherwise query the wallet, and on a non-empty
block hash confirm, persist, reset fees and notify signers. -/
def doStateAwaitConfirmation (P : AttestParams) (s : AttestService) (env : Env) :
    AttestService × List Event :=
  if env.now - s.confirmTime > P.atimeHandleUnconfirmed then
    ({ s with state := ASTATE_HANDLE_UNCONFIRMED }, [])
  else
    let evs := [Event.queryTx s.attestation.txid]
    match env.getTransaction.2 with
    | some e => ((setFailure s (some e)).1, evs)
    | none =>
      let newTx := env.getTransaction.1
      if newTx.blockHash ≠ "" then
        let att := { s.attestation with confirmed := true }
        let att := att.updateInfo newTx
        let s1 := { s with attestation := att }
        let evs1 := evs ++ [Event.updateLatest att]
        match env.updateLatestAttestation with
        | some e => ((setFailure s1 (some e)).1, evs1)
        | none =>
          let evs2 := evs1 ++ [Event.resetFee]
          let confirmedHash := s1.attestation.commitmentHash
          ({ s1 with state := ASTATE_NEXT_COMMITMENT,
                     attestDelay := P.atimeNewAttestation - (env.now - s1.confirmTime) },
           evs2 ++ [Event.sendConfirmedHash confirmedHash])
      else
        ({ s with attestDelay := ATIME_CONFIRMATION }, evs)

/-- `doStateHandleUnconfirmed`: bump the attestation fees and re-publish
the pre-signed transaction to signers. -/
def doStateHandleUnconfirmed (s : AttestService) (env : Env) : AttestService × List Event :=
  match env.bumpAttestationFees.2 with
  | some e => ((setFailure s (some e)).1, [])
  | none =>
    let att := { s.attestation with tx := env.bumpAttestationFees.1 }
    ({ s with attestation := att, state := ASTATE_SIGN_ATTESTATION,
              attestDelay := ATIME_SIGS },
     [Event.sendNewTx att.tx])

/-- `doAttestation`: reset the delay to `ATIME_FIXED` and dispatch on the
current state. -/
def doAttestation (P : AttestParams) (s : AttestService) (env : Env) :
    AttestService × List Event :=
  let s := { s with attestDelay := ATIME_FIXED }
  match s.state with
  | ASTATE_ERROR => doStateError s
  | ASTATE_INIT => doStateInit s env
  | ASTATE_NEXT_COMMITMENT => doStateNextCommitment P s env
  | ASTATE_NEW_ATTESTATION => doStateNewAttestation s env
  | ASTATE_SIGN_ATTESTATION => doStateSignAttestation s env
  | ASTATE_PRE_SEND_STORE => doStatePreSendStore s env
  | ASTATE_SEND_ATTESTATION => doStateSendAttestation s env
  | ASTATE_AWAIT_CONFIRMATION => doStateAwaitConfirmation P s env
  | ASTATE_HANDLE_UNCONFIRMED => doStateHandleUnconfirmed s env

/-- One iteration of `Run`: perform `doAttestation`, then, in regtest,
overwrite the delay with 10 seconds. -/
def runTick (P : AttestParams) (s : AttestService) (env : Env) :
    AttestService × List Event :=
  let r := doAttestation P s env
  (if r.1.isRegtest then { r.1 with attestDelay := 10 * second } else r.1, r.2)

/-- Whether a tick's events contain the crash marker. -/
def hasNilDeref : List Event → Bool
  | [] => false
  | Event.nilDeref :: _ => true
  | _ :: rest => hasNilDeref rest

/-- Iterated `Run` loop: fold `runTick` over a list of per-tick
environments, concatenating the observable events in order.  A tick whose
events contain `Event.nilDeref` crashed the process, so the trace ends
there: the remaining environments produce no further events. -/
def runTrace (P : AttestParams) (s : AttestService) : List Env → AttestService × List Event
  | [] => (s, [])
  | env :: rest =>
    let r := runTick P s env
    if hasNilDeref r.2 then (r.1, r.2)
    else
      let r2 := runTrace P r.1 rest
      (r2.1, r.2 ++ r2.2)

/-- `TimingConfig` (package config, fields are integers; -1 means absent). -/
structure TimingConfig where
  newAttestationMinutes : Int
  handleUnconfirmedMinutes : Int
deriving DecidableEq

/-- The slice of `confpkg.Config` that `NewAttestService` reads. -/
structure Config where
  initTx : String
  timing : TimingConfig
  regtest : Bool

/-- The service state `NewAttestService` constructs. -/
def initialService (regtest : Bool) : AttestService :=
  { state := ASTATE_INIT, attestation := NewAttestationDefault,
    errorState := none, isRegtest := regtest,
    attestDelay := 30 * second, confirmTime := 0 }

/-- Result of a successful `NewAttestService`: the timing globals, the
initial service state, and the warnings logged. -/
structure ServiceInit where
  params : AttestParams
  service : AttestService
  warnings : List String

/-- `NewAttestService`, parameterised by the hash parser
(`chainhash.NewHashFromStr`, external library code): `none` models the
`log.Fatalf` abort on a malformed `InitTx`; otherwise the timing globals
are initialised from the config, defaulting (with a warning) on
non-positive values. -/
def NewAttestService (parseHash : String → Option Hash) (config : Config) :
    Option ServiceInit :=
  match parseHash config.initTx with
  | none => none
  | some _ =>
    let atimeNew :=
      if config.timing.newAttestationMinutes > 0 then
        config.timing.newAttestationMinutes * minute
      else DEFAULT_ATIME_NEW_ATTESTATION
    let warn1 :=
      if config.timing.newAttestationMinutes > 0 then ([] : List String)
      else [WARNING_INVALID_ATIME_NEW_ATTESTATION_ARG]
    let atimeHandle :=
      if config.timing.handleUnconfirmedMinutes > 0 then
        config.timing.handleUnconfirmedMinutes * minute
      else DEFAULT_ATIME_HANDLE_UNCONFIRMED
    let warn2 :=
      if config.timing.handleUnconfirmedMinutes > 0 then ([] : List String)
      else [WARNING_INVALID_ATIME_HANDLE_UNCONFIRMED_ARG]
    some { params := { atimeNewAttestation := atimeNew,
                       atimeHandleUnconfirmed := atimeHandle },
           service := initialService config.regtest,
           warnings := warn1 ++ warn2 }

/-! ### Event-order machinery for the persist-before-broadcast property -/

/-- Accumulate the transactions that have been persisted to the store as
unconfirmed (`UpdateLatestAttestation` with `Confirmed = false`). -/
def persistAcc (ps : List Tx) (e : Event) : List Tx :=
  match e with
  | Event.updateLatest att => if att.confirmed then ps else att.tx :: ps
  | _ => ps

/-- A broadcast is in order if its transaction was already persisted
unconfirmed; every other event is in order. -/
def okEvent (ps : List Tx) (e : Event) : Bool :=
  match e with
  | Event.broadcast tx => decide (tx ∈ ps)
  | _ => true

/-- Scan an event list: every broadcast must be preceded by an unconfirmed
store update of the same transaction (given `ps` already persisted). -/
def broadcastSafe (ps : List Tx) : List Event → Bool
  | [] => true
  | e :: rest => okEvent ps e && broadcastSafe (persistAcc ps e) rest

/-- The states in which the current attestation is in flight (created for
the current round, not yet confirmed). -/
def inflight : AttestationState → Bool
  | ASTATE_NEW_ATTESTATION => true
  | ASTATE_SIGN_ATTESTATION => true
  | ASTATE_PRE_SEND_STORE => true
  | ASTATE_SEND_ATTESTATION => true
  | ASTATE_AWAIT_CONFIRMATION => true
  | ASTATE_HANDLE_UNCONFIRMED => true
  | _ => false

/-- Step invariant: an in-flight attestation is unconfirmed, and in
`ASTATE_SEND_ATTESTATION` its transaction has already been persisted
unconfirmed. -/
def TickInv (s : AttestService) (ps : List Tx) : Prop :=
  (inflight s.state = true → s.attestation.confirmed = false) ∧
  (s.state = ASTATE_SEND_ATTESTATION → s.attestation.tx ∈ ps)

/-- The invariant of the error state: in `ASTATE_ERROR` the stored error is
non-nil. -/
def ErrInv (s : AttestService) : Prop :=
  s.state = ASTATE_ERROR → s.errorState ≠ none

/-! ### Concrete fixtures used to exercise the theorems -/

/-- The default timing schedule. -/
def defaultParams : AttestParams :=
  { atimeNewAttestation := DEFAULT_ATIME_NEW_ATTESTATION,
    atimeHandleUnconfirmed := DEFAULT_ATIME_HANDLE_UNCONFIRMED }

/-- A benign environment: no unconfirmed tx, last unspent found, all RPCs
succeed, commitment hash 7 offered by the store. -/
def baseEnv : Env :=
  { now := 0,
    getUnconfirmedTx := ((false, 0), none),
    findLastUnspent := ((true, { txid := 5 }), none),
    findTopupUnspent := ((false, { txid := 0 }), none),
    getAttestationCommitment := ({ commitmentHash := 0 }, none),
    getClientCommitment := ({ commitmentHash := 7 }, none),
    getLatestAttestationCommitmentHash := (0, none),
    updateLatestAttestation := none,
    getRawTransaction := ({ hash := 9 }, none),
    getTransaction := ({ blockHash := "", time := 0 }, none),
    getNextAttestationKey := (0, none),
    getNextAttestationAddr := (0, none),
    importAttestationAddr := none,
    createAttestation := ({ hash := 42 }, none),
    getSigs := [],
    signAttestation := ({ hash := 43 }, none),
    sendAttestation := (43, none),
    bumpAttestationFees := ({ hash := 44 }, none) }

/-- `baseEnv` with a failing mempool scan. -/
def initFailEnv : Env :=
  { baseEnv with getUnconfirmedTx := ((false, 0), some "rpc failure") }

/-- `baseEnv` with failing wallet `GetRawTransaction` / `GetTransaction`
and a non-zero stored commitment. -/
def walletErrEnv : Env :=
  { baseEnv with
      getRawTransaction := ({ hash := 9 }, some "raw rpc error"),
      getTransaction := ({ blockHash := "", time := 0 }, some "gettx rpc error"),
      getAttestationCommitment := ({ commitmentHash := 3 }, none) }

/-- `baseEnv` with a non-zero stored commitment and all wallet calls
succeeding. -/
def storeOkEnv : Env :=
  { baseEnv with getAttestationCommitment := ({ commitmentHash := 3 }, none) }

/-- `storeOkEnv` with only the wallet `GetTransaction` call failing. -/
def getTxErrEnv : Env :=
  { storeOkEnv with
      getTransaction := ({ blockHash := "", time := 0 }, some "gettx rpc error") }

/-- `baseEnv` at an instant past the handle-unconfirmed timeout. -/
def awaitTimeoutEnv : Env :=
  { baseEnv with now := DEFAULT_ATIME_HANDLE_UNCONFIRMED + 1 }

/-- `baseEnv` with the attestation transaction reported mined. -/
def confirmedEnv : Env :=
  { baseEnv with now := 100,
                 getTransaction := ({ blockHash := "0000b", time := 3 }, none) }

/-- `baseEnv` whose latest client commitment equals the zero hash of the
default attestation. -/
def equalCommitmentEnv : Env :=
  { baseEnv with getClientCommitment := ({ commitmentHash := 0 }, none) }

/-- A fresh service parked at a given state. -/
def serviceAt (st : AttestationState) : AttestService :=
  { initialService false with state := st }

/-- A trivially succeeding hash parser. -/
def someHashParse : String → Option Hash := fun _ => some 0

/-- A config whose timing values are both 0 (invalid). -/
def timingZeroConfig : Config :=
  { initTx := "aa",
    timing := { newAttestationMinutes := 0, handleUnconfirmedMinutes := 0 },
    regtest := false }

/-- A config whose timing values are 10 and 60 minutes. -/
def timingTenConfig : Config :=
  { initTx := "aa",
    timing := { newAttestationMinutes := 10, handleUnconfirmedMinutes := 60 },
    regtest := false }

/-- The construction result for `timingZeroConfig`. -/
def zeroInit : ServiceInit :=
  { params := { atimeNewAttestation := DEFAULT_ATIME_NEW_ATTESTATION,
                atimeHandleUnconfirmed := DEFAULT_ATIME_HANDLE_UNCONFIRMED },
    service := initialService false,
    warnings := [WARNING_INVALID_ATIME_NEW_ATTESTATION_ARG,
      WARNING_INVALID_ATIME_HANDLE_UNCONFIRMED_ARG] }

/-- The attestation as persisted by the pre-send store tick of the six-tick
happy-path trace `List.replicate 6 baseEnv`. -/
def sentAttestation : Attestation :=
  { txid := 43, commitment := { commitmentHash := 7 }, tx := { hash := 43 },
    confirmed := false, blockHash := "", blockTime := 0 }

/-- The events preceding the broadcast in the six-tick happy-path trace. -/
def happyPrefix : List Event :=
  [Event.sendConfirmedHash 0, Event.sendNewHash 7,
   Event.sendNewTx { hash := 42 }, Event.updateLatest sentAttestation]

/-- The construction result for `timingTenConfig`. -/
def tenInit : ServiceInit :=
  { params := { atimeNewAttestation := 10 * minute,
                atimeHandleUnconfirmed := 60 * minute },
    service := initialService false,
    warnings := [] }

/-! ### Helper lemmas -/

theorem broadcastSafe_append (a b : List Event) (ps : List Tx) :
    broadcastSafe ps (a ++ b) =
      (broadcastSafe ps a && broadcastSafe (a.foldl persistAcc ps) b) := by
  induction a generalizing ps with
  | nil => simp [broadcastSafe]
  | cons e rest ih => simp [broadcastSafe, ih, Bool.and_assoc]

theorem doAttestation_safe (P : AttestParams) (s : AttestService) (env : Env)
    (ps : List Tx) (h : TickInv s ps) :
    broadcastSafe ps (doAttestation P s env).2 = true ∧
    TickInv (doAttestation P s env).1
      (((doAttestation P s env).2).foldl persistAcc ps) := by
  obtain ⟨st, att, es, rt, ad, ct⟩ := s
  obtain ⟨h1, h2⟩ := h
  simp only [TickInv] at *
  cases st <;>
    simp only [inflight, false_implies, true_implies, forall_const] at h1 h2 <;>
    simp only [doAttestation, doStateError, doStateInit, stateInitUnconfirmed,
      stateInitUnspent, stateInitWalletFailure, doStateNextCommitment,
      doStateNewAttestation, doStateSignAttestation, doStatePreSendStore,
      doStateSendAttestation, doStateAwaitConfirmation, doStateHandleUnconfirmed,
      setFailure] <;>
    (repeat' split) <;>
    simp_all [broadcastSafe, okEvent, persistAcc, inflight, NewAttestation,
      NewAttestationDefault, Attestation.setCommitment, Attestation.updateInfo,
      Attestation.commitmentHash, Commitment.getCommitmentHash]

theorem runTick_safe (P : AttestParams) (s : AttestService) (env : Env)
    (ps : List Tx) (h : TickInv s ps) :
    broadcastSafe ps (runTick P s env).2 = true ∧
    TickInv (runTick P s env).1
      (((runTick P s env).2).foldl persistAcc ps) := by
  have hA := doAttestation_safe P s env ps h
  simp only [runTick]
  refine ⟨hA.1, ?_⟩
  split
  · exact ⟨hA.2.1, hA.2.2⟩
  · exact hA.2

theorem runTrace_safe (envs : List Env) (P : AttestParams) (s : AttestService)
    (ps : List Tx) (h : TickInv s ps) :
    broadcastSafe ps (runTrace P s envs).2 = true := by
  induction envs generalizing s ps with
  | nil => simp [runTrace, broadcastSafe]
  | cons env rest ih =>
    have h1 := runTick_safe P s env ps h
    by_cases hp : hasNilDeref (runTick P s env).2
    · simp only [runTrace, hp, if_true]
      exact h1.1
    · simp only [runTrace, hp, if_false, Bool.false_eq_true, broadcastSafe_append]
      rw [h1.1, ih (runTick P s env).1 _ h1.2]
      rfl

theorem mem_foldl_persistAcc (l : List Event) (ps : List Tx) (tx : Tx)
    (h : tx ∈ l.foldl persistAcc ps) :
    tx ∈ ps ∨ ∃ att, Event.updateLatest att ∈ l ∧ att.confirmed = false ∧ att.tx = tx := by
  induction l generalizing ps with
  | nil => exact Or.inl h
  | cons e rest ih =>
    simp only [List.foldl] at h
    rcases ih _ h with hmem | ⟨att, hin, hc, ht⟩
    · cases e with
      | updateLatest a =>
        by_cases hca : a.confirmed
        · simp [persistAcc, hca] at hmem
          exact Or.inl hmem
        · simp [persistAcc, hca] at hmem
          rcases hmem with heq | hmem
          · exact Or.inr ⟨a, by simp, by simpa using hca, heq.symm⟩
          · exact Or.inl hmem
      | broadcast a => exact Or.inl (by simpa [persistAcc] using hmem)
      | queryTx a => exact Or.inl (by simpa [persistAcc] using hmem)
      | queryRawTx a => exact Or.inl (by simpa [persistAcc] using hmem)
      | sendConfirmedHash a => exact Or.inl (by simpa [persistAcc] using hmem)
      | sendNewHash a => exact Or.inl (by simpa [persistAcc] using hmem)
      | sendNewTx a => exact Or.inl (by simpa [persistAcc] using hmem)
      | resetFee => exact Or.inl (by simpa [persistAcc] using hmem)
      | nilDeref => exact Or.inl (by simpa [persistAcc] using hmem)
    · exact Or.inr ⟨att, List.mem_cons_of_mem _ hin, hc, ht⟩

theorem broadcastSafe_mem (l1 l2 : List Event) (tx : Tx) (ps : List Tx)
    (h : broadcastSafe ps (l1 ++ Event.broadcast tx :: l2) = true) :
    tx ∈ l1.foldl persistAcc ps := by
  rw [broadcastSafe_append] at h
  have h2 := (Bool.and_eq_true _ _).mp h
  have h3 := h2.2
  simp only [broadcastSafe, okEvent, Bool.and_eq_true, decide_eq_true_eq] at h3
  exact h3.1

theorem runTick_errInv (P : AttestParams) (s : AttestService) (env : Env) :
    ErrInv (runTick P s env).1 := by
  obtain ⟨st, att, es, rt, ad, ct⟩ := s
  simp only [ErrInv]
  cases st <;>
    simp only [runTick, doAttestation, doStateError, doStateInit,
      stateInitUnconfirmed, stateInitUnspent, stateInitWalletFailure,
      doStateNextCommitment, doStateNewAttestation, doStateSignAttestation,
      doStatePreSendStore, doStateSendAttestation, doStateAwaitConfirmation,
      doStateHandleUnconfirmed, setFailure] <;>
    (repeat' split) <;>
    simp_all

theorem runTrace_errInv (envs : List Env) (P : AttestParams) (s : AttestService)
    (h : ErrInv s) : ErrInv (runTrace P s envs).1 := by
  induction envs generalizing s with
  | nil => exact h
  | cons env rest ih =>
    by_cases hp : hasNilDeref (runTick P s env).2
    · simp only [runTrace, hp, if_true]
      exact runTick_errInv P s env
    · simp only [runTrace, hp, if_false, Bool.false_eq_true]
      exact ih (runTick P s env).1 (runTick_errInv P s env)

theorem doAttestation_isRegtest (P : AttestParams) (s : AttestService) (env : Env) :
    (doAttestation P s env).1.isRegtest = s.isRegtest := by
  obtain ⟨st, att, es, rt, ad, ct⟩ := s
  cases st <;>
    simp only [doAttestation, doStateError, doStateInit, stateInitUnconfirmed,
      stateInitUnspent, stateInitWalletFailure, doStateNextCommitment,
      doStateNewAttestation, doStateSignAttestation, doStatePreSendStore,
      doStateSendAttestation, doStateAwaitConfirmation, doStateHandleUnconfirmed,
      setFailure] <;>
    (repeat' split) <;> simp_all

/-! ### Claim theorems -/

/-- Claim C1: for every execution trace of the driver from the initial
service, whenever a transaction is broadcast by the wallet, a store update
persisting an attestation of that transaction with `confirmed = false` has
already happened strictly earlier in the trace. -/
theorem claim_C1_store_before_broadcast (P : AttestParams) (regtest : Bool)
    (envs : List Env) (l1 l2 : List Event) (tx : Tx)
    (h : (runTrace P (initialService regtest) envs).2 =
      l1 ++ Event.broadcast tx :: l2) :
    ∃ att, Event.updateLatest att ∈ l1 ∧ att.tx = tx ∧ att.confirmed = false := by
  have hinv : TickInv (initialService regtest) [] := by
    constructor
    · intro hc; simp [initialService, inflight] at hc
    · intro hc; simp [initialService] at hc
  have hsafe := runTrace_safe envs P (initialService regtest) [] hinv
  rw [h] at hsafe
  have hmem := broadcastSafe_mem l1 l2 tx [] hsafe
  rcases mem_foldl_persistAcc l1 [] tx hmem with h0 | ⟨att, hin, hc, ht⟩
  · cases h0
  · exact ⟨att, hin, ht, hc⟩

/-- Witness for C1: a six-tick happy-path trace (init, next commitment,
build, sign, pre-send store, send) reaches a broadcast, and the preceding
events contain the unconfirmed store update of the broadcast transaction. -/
theorem claim_C1_witness :
    ∃ att, Event.updateLatest att ∈ happyPrefix ∧
      att.tx = ({ hash := 43 } : Tx) ∧ att.confirmed = false :=
  claim_C1_store_before_broadcast defaultParams false (List.replicate 6 baseEnv)
    happyPrefix [] { hash := 43 } (by rfl)

/-- Claim C2: `setFailure` on a non-nil error stores the error and moves
the driver to `ASTATE_ERROR`, and a tick taken in `ASTATE_ERROR` always
enters `ASTATE_INIT`. -/
theorem claim_C2_failure_then_init :
    (∀ (s : AttestService) (e : Err),
        setFailure s (some e) =
          ({ s with errorState := some e, state := ASTATE_ERROR }, true)) ∧
    (∀ (P : AttestParams) (s : AttestService) (env : Env),
        s.state = ASTATE_ERROR → (runTick P s env).1.state = ASTATE_INIT) := by
  refine ⟨fun s e => rfl, ?_⟩
  intro P s env hs
  obtain ⟨st, att, es, rt, ad, ct⟩ := s
  simp only at hs
  subst hs
  simp only [runTick, doAttestation, doStateError]
  split <;> rfl

/-- Witness for C2: from a concrete error state one tick returns to init. -/
theorem claim_C2_witness :
    (runTick defaultParams (serviceAt ASTATE_ERROR) baseEnv).1.state = ASTATE_INIT :=
  claim_C2_failure_then_init.2 defaultParams (serviceAt ASTATE_ERROR) baseEnv (by rfl)

/-- Claim C3: the driver never goes from `ASTATE_NEW_ATTESTATION` directly
to `ASTATE_SEND_ATTESTATION`: a tick from `NewAttestation` reaches only
`SignAttestation` or `Error`, from `SignAttestation` only `PreSendStore` or
`Error`, and from `PreSendStore` only `SendAttestation` or `Error`. -/
theorem claim_C3_no_new_to_send (P : AttestParams) (s : AttestService) (env : Env) :
    (s.state = ASTATE_NEW_ATTESTATION →
      (runTick P s env).1.state ≠ ASTATE_SEND_ATTESTATION ∧
      ((runTick P s env).1.state = ASTATE_SIGN_ATTESTATION ∨
        (runTick P s env).1.state = ASTATE_ERROR)) ∧
    (s.state = ASTATE_SIGN_ATTESTATION →
      ((runTick P s env).1.state = ASTATE_PRE_SEND_STORE ∨
        (runTick P s env).1.state = ASTATE_ERROR)) ∧
    (s.state = ASTATE_PRE_SEND_STORE →
      ((runTick P s env).1.state = ASTATE_SEND_ATTESTATION ∨
        (runTick P s env).1.state = ASTATE_ERROR)) := by
  obtain ⟨st, att, es, rt, ad, ct⟩ := s
  refine ⟨?_, ?_, ?_⟩ <;> intro hs <;> simp only at hs <;> subst hs <;>
    simp only [runTick, doAttestation, doStateNewAttestation,
      doStateSignAttestation, doStatePreSendStore, setFailure] <;>
    (repeat' split) <;> simp_all

/-- Witness for C3: concrete ticks from the three states. -/
theorem claim_C3_witness :
    ((runTick defaultParams (serviceAt ASTATE_NEW_ATTESTATION) baseEnv).1.state ≠
        ASTATE_SEND_ATTESTATION ∧
      ((runTick defaultParams (serviceAt ASTATE_NEW_ATTESTATION) baseEnv).1.state =
          ASTATE_SIGN_ATTESTATION ∨
        (runTick defaultParams (serviceAt ASTATE_NEW_ATTESTATION) baseEnv).1.state =
          ASTATE_ERROR)) ∧
    ((runTick defaultParams (serviceAt ASTATE_SIGN_ATTESTATION) baseEnv).1.state =
        ASTATE_PRE_SEND_STORE ∨
      (runTick defaultParams (serviceAt ASTATE_SIGN_ATTESTATION) baseEnv).1.state =
        ASTATE_ERROR) ∧
    ((runTick defaultParams (serviceAt ASTATE_PRE_SEND_STORE) baseEnv).1.state =
        ASTATE_SEND_ATTESTATION ∨
      (runTick defaultParams (serviceAt ASTATE_PRE_SEND_STORE) baseEnv).1.state =
        ASTATE_ERROR) :=
  ⟨(claim_C3_no_new_to_send defaultParams (serviceAt ASTATE_NEW_ATTESTATION)
      baseEnv).1 (by rfl),
   (claim_C3_no_new_to_send defaultParams (serviceAt ASTATE_SIGN_ATTESTATION)
      baseEnv).2.1 (by rfl),
   (claim_C3_no_new_to_send defaultParams (serviceAt ASTATE_PRE_SEND_STORE)
      baseEnv).2.2 (by rfl)⟩

/-- Claim C4: on an `AwaitConfirmation` tick, past the unconfirmed timeout
the state becomes `HandleUnconfirmed` with no wallet query; otherwise, on a
successful wallet query with a non-empty block hash the attestation is
marked confirmed with copied block metadata, persisted, fees reset, the
confirmed hash sent, the state becomes `NextCommitment` and the delay is
`atimeNewAttestation` minus the elapsed time; on an empty block hash the
state is unchanged and the delay is `ATIME_CONFIRMATION`. -/
theorem claim_C4_await_confirmation (P : AttestParams) (s : AttestService)
    (env : Env) (hst : s.state = ASTATE_AWAIT_CONFIRMATION) :
    (env.now - s.confirmTime > P.atimeHandleUnconfirmed →
      (doAttestation P s env).1.state = ASTATE_HANDLE_UNCONFIRMED ∧
      (doAttestation P s env).2 = []) ∧
    (env.now - s.confirmTime ≤ P.atimeHandleUnconfirmed →
      env.getTransaction.2 = none →
      (env.getTransaction.1.blockHash ≠ "" →
        env.updateLatestAttestation = none →
        (doAttestation P s env).1.attestation =
          ({ s.attestation with confirmed := true }).updateInfo
            env.getTransaction.1 ∧
        (doAttestation P s env).1.attestation.confirmed = true ∧
        Event.updateLatest ((doAttestation P s env).1.attestation) ∈
          (doAttestation P s env).2 ∧
        Event.resetFee ∈ (doAttestation P s env).2 ∧
        Event.sendConfirmedHash s.attestation.commitmentHash ∈
          (doAttestation P s env).2 ∧
        (doAttestation P s env).1.state = ASTATE_NEXT_COMMITMENT ∧
        (doAttestation P s env).1.attestDelay =
          P.atimeNewAttestation - (env.now - s.confirmTime)) ∧
      (env.getTransaction.1.blockHash = "" →
        (doAttestation P s env).1.state = ASTATE_AWAIT_CONFIRMATION ∧
        (doAttestation P s env).1.attestation = s.attestation ∧
        (doAttestation P s env).1.attestDelay = ATIME_CONFIRMATION)) := by
  obtain ⟨st, att, es, rt, ad, ct⟩ := s
  simp only at hst
  subst hst
  constructor
  · intro htime
    simp [doAttestation, doStateAwaitConfirmation, htime]
  · intro htime htx
    have hnot : ¬ env.now - ct > P.atimeHandleUnconfirmed := by
      simp only [not_lt]; exact htime
    constructor
    · intro hbh hupd
      simp [doAttestation, doStateAwaitConfirmation, hnot, htx, hbh, hupd,
        Attestation.updateInfo, Attestation.commitmentHash,
        Commitment.getCommitmentHash]
    · intro hbh
      simp [doAttestation, doStateAwaitConfirmation, hnot, htx, hbh]

/-- Witness for C4: the three branches at concrete environments. -/
theorem claim_C4_witness :
    ((doAttestation defaultParams (serviceAt ASTATE_AWAIT_CONFIRMATION)
        awaitTimeoutEnv).1.state = ASTATE_HANDLE_UNCONFIRMED ∧
      (doAttestation defaultParams (serviceAt ASTATE_AWAIT_CONFIRMATION)
        awaitTimeoutEnv).2 = []) ∧
    ((doAttestation defaultParams (serviceAt ASTATE_AWAIT_CONFIRMATION)
        confirmedEnv).1.attestation =
        ({ (serviceAt ASTATE_AWAIT_CONFIRMATION).attestation with
            confirmed := true }).updateInfo confirmedEnv.getTransaction.1 ∧
      (doAttestation defaultParams (serviceAt ASTATE_AWAIT_CONFIRMATION)
        confirmedEnv).1.attestation.confirmed = true ∧
      Event.updateLatest ((doAttestation defaultParams
          (serviceAt ASTATE_AWAIT_CONFIRMATION) confirmedEnv).1.attestation) ∈
        (doAttestation defaultParams (serviceAt ASTATE_AWAIT_CONFIRMATION)
          confirmedEnv).2 ∧
      Event.resetFee ∈ (doAttestation defaultParams
        (serviceAt ASTATE_AWAIT_CONFIRMATION) confirmedEnv).2 ∧
      Event.sendConfirmedHash
          (serviceAt ASTATE_AWAIT_CONFIRMATION).attestation.commitmentHash ∈
        (doAttestation defaultParams (serviceAt ASTATE_AWAIT_CONFIRMATION)
          confirmedEnv).2 ∧
      (doAttestation defaultParams (serviceAt ASTATE_AWAIT_CONFIRMATION)
        confirmedEnv).1.state = ASTATE_NEXT_COMMITMENT ∧
      (doAttestation defaultParams (serviceAt ASTATE_AWAIT_CONFIRMATION)
        confirmedEnv).1.attestDelay =
        defaultParams.atimeNewAttestation -
          (confirmedEnv.now - (serviceAt ASTATE_AWAIT_CONFIRMATION).confirmTime)) ∧
    ((doAttestation defaultParams (serviceAt ASTATE_AWAIT_CONFIRMATION)
        baseEnv).1.state = ASTATE_AWAIT_CONFIRMATION ∧
      (doAttestation defaultParams (serviceAt ASTATE_AWAIT_CONFIRMATION)
        baseEnv).1.attestation = (serviceAt ASTATE_AWAIT_CONFIRMATION).attestation ∧
      (doAttestation defaultParams (serviceAt ASTATE_AWAIT_CONFIRMATION)
        baseEnv).1.attestDelay = ATIME_CONFIRMATION) :=
  ⟨(claim_C4_await_confirmation defaultParams (serviceAt ASTATE_AWAIT_CONFIRMATION)
      awaitTimeoutEnv (by rfl)).1 (by decide),
   ((claim_C4_await_confirmation defaultParams (serviceAt ASTATE_AWAIT_CONFIRMATION)
      confirmedEnv (by rfl)).2 (by decide) (by rfl)).1 (by decide) (by rfl),
   ((claim_C4_await_confirmation defaultParams (serviceAt ASTATE_AWAIT_CONFIRMATION)
      baseEnv (by rfl)).2 (by decide) (by rfl)).2 (by rfl)⟩

/-- Claim C5: on a `NextCommitment` tick with a successful store read, if
the latest commitment root equals the current attestation's root the state
and attestation are unchanged, no signer message is sent and the delay is
`atimeNewAttestation`; if they differ the new hash is sent to the signers,
a fresh default attestation bound to the new commitment replaces the
current one, and the state becomes `NewAttestation`. -/
theorem claim_C5_next_commitment (P : AttestParams) (s : AttestService)
    (env : Env) (hst : s.state = ASTATE_NEXT_COMMITMENT)
    (hok : env.getClientCommitment.2 = none) :
    (env.getClientCommitment.1.getCommitmentHash = s.attestation.commitmentHash →
      (doAttestation P s env).1.state = ASTATE_NEXT_COMMITMENT ∧
      (doAttestation P s env).1.attestation = s.attestation ∧
      (doAttestation P s env).2 = [] ∧
      (doAttestation P s env).1.attestDelay = P.atimeNewAttestation) ∧
    (env.getClientCommitment.1.getCommitmentHash ≠ s.attestation.commitmentHash →
      (doAttestation P s env).2 =
        [Event.sendNewHash env.getClientCommitment.1.getCommitmentHash] ∧
      (doAttestation P s env).1.attestation =
        NewAttestationDefault.setCommitment env.getClientCommitment.1 ∧
      (doAttestation P s env).1.state = ASTATE_NEW_ATTESTATION) := by
  obtain ⟨st, att, es, rt, ad, ct⟩ := s
  simp only at hst
  subst hst
  constructor
  · intro heq
    simp [doAttestation, doStateNextCommitment, hok, heq]
  · intro hne
    simp [doAttestation, doStateNextCommitment, hok, hne]

/-- Witness for C5: both branches at concrete environments. -/
theorem claim_C5_witness :
    ((doAttestation defaultParams (serviceAt ASTATE_NEXT_COMMITMENT)
        equalCommitmentEnv).1.state = ASTATE_NEXT_COMMITMENT ∧
      (doAttestation defaultParams (serviceAt ASTATE_NEXT_COMMITMENT)
        equalCommitmentEnv).1.attestation =
        (serviceAt ASTATE_NEXT_COMMITMENT).attestation ∧
      (doAttestation defaultParams (serviceAt ASTATE_NEXT_COMMITMENT)
        equalCommitmentEnv).2 = [] ∧
      (doAttestation defaultParams (serviceAt ASTATE_NEXT_COMMITMENT)
        equalCommitmentEnv).1.attestDelay = defaultParams.atimeNewAttestation) ∧
    ((doAttestation defaultParams (serviceAt ASTATE_NEXT_COMMITMENT) baseEnv).2 =
        [Event.sendNewHash baseEnv.getClientCommitment.1.getCommitmentHash] ∧
      (doAttestation defaultParams (serviceAt ASTATE_NEXT_COMMITMENT)
        baseEnv).1.attestation =
        NewAttestationDefault.setCommitment baseEnv.getClientCommitment.1 ∧
      (doAttestation defaultParams (serviceAt ASTATE_NEXT_COMMITMENT)
        baseEnv).1.state = ASTATE_NEW_ATTESTATION) :=
  ⟨(claim_C5_next_commitment defaultParams (serviceAt ASTATE_NEXT_COMMITMENT)
      equalCommitmentEnv (by rfl) (by rfl)).1 (by rfl),
   (claim_C5_next_commitment defaultParams (serviceAt ASTATE_NEXT_COMMITMENT)
      baseEnv (by rfl) (by rfl)).2 (by decide)⟩

/-- Claim C6: in regtest mode every tick of the run loop overwrites the
delay set by the state handler with 10 seconds. -/
theorem claim_C6_regtest_delay (P : AttestParams) (s : AttestService) (env : Env)
    (h : s.isRegtest = true) :
    (runTick P s env).1.attestDelay = 10 * second := by
  simp [runTick, doAttestation_isRegtest, h]

/-- Witness for C6: a concrete regtest tick sleeps 10 seconds. -/
theorem claim_C6_witness :
    (runTick defaultParams (initialService true) baseEnv).1.attestDelay =
      10 * second :=
  claim_C6_regtest_delay defaultParams (initialService true) baseEnv (by rfl)

/-- Claim C7: at construction, a non-positive `NewAttestationMinutes` is
ignored in favour of the 60-minute default with a warning, a positive value
is taken as that many minutes, and the same holds for
`HandleUnconfirmedMinutes`. -/
theorem claim_C7_timing_defaults (parseHash : String → Option Hash)
    (config : Config) (r : ServiceInit)
    (h : NewAttestService parseHash config = some r) :
    (config.timing.newAttestationMinutes > 0 →
      r.params.atimeNewAttestation =
        config.timing.newAttestationMinutes * minute ∧
      WARNING_INVALID_ATIME_NEW_ATTESTATION_ARG ∉ r.warnings) ∧
    (config.timing.newAttestationMinutes ≤ 0 →
      r.params.atimeNewAttestation = 60 * minute ∧
      WARNING_INVALID_ATIME_NEW_ATTESTATION_ARG ∈ r.warnings) ∧
    (config.timing.handleUnconfirmedMinutes > 0 →
      r.params.atimeHandleUnconfirmed =
        config.timing.handleUnconfirmedMinutes * minute ∧
      WARNING_INVALID_ATIME_HANDLE_UNCONFIRMED_ARG ∉ r.warnings) ∧
    (config.timing.handleUnconfirmedMinutes ≤ 0 →
      r.params.atimeHandleUnconfirmed = 60 * minute ∧
      WARNING_INVALID_ATIME_HANDLE_UNCONFIRMED_ARG ∈ r.warnings) := by
  simp only [NewAttestService] at h
  cases hp : parseHash config.initTx with
  | none => rw [hp] at h; simp at h
  | some v =>
    rw [hp] at h
    have hr := Option.some.inj h
    subst hr
    refine ⟨?_, ?_, ?_, ?_⟩ <;> intro hc <;> constructor <;> split_ifs <;>
      first
        | rfl
        | omega
        | (simp; done)
        | (simp; decide)

/-- Witness for C7: concrete configs with zero and with positive timing. -/
theorem claim_C7_witness :
    (zeroInit.params.atimeNewAttestation = 60 * minute ∧
      WARNING_INVALID_ATIME_NEW_ATTESTATION_ARG ∈ zeroInit.warnings) ∧
    (zeroInit.params.atimeHandleUnconfirmed = 60 * minute ∧
      WARNING_INVALID_ATIME_HANDLE_UNCONFIRMED_ARG ∈ zeroInit.warnings) ∧
    (tenInit.params.atimeNewAttestation =
        timingTenConfig.timing.newAttestationMinutes * minute ∧
      WARNING_INVALID_ATIME_NEW_ATTESTATION_ARG ∉ tenInit.warnings) ∧
    (tenInit.params.atimeHandleUnconfirmed =
        timingTenConfig.timing.handleUnconfirmedMinutes * minute ∧
      WARNING_INVALID_ATIME_HANDLE_UNCONFIRMED_ARG ∉ tenInit.warnings) :=
  ⟨(claim_C7_timing_defaults someHashParse timingZeroConfig zeroInit
      (by rfl)).2.1 (by decide),
   (claim_C7_timing_defaults someHashParse timingZeroConfig zeroInit
      (by rfl)).2.2.2 (by decide),
   (claim_C7_timing_defaults someHashParse timingTenConfig tenInit
      (by rfl)).1 (by decide),
   (claim_C7_timing_defaults someHashParse timingTenConfig tenInit
      (by rfl)).2.2.1 (by decide)⟩

/-- Claim C8: service construction aborts the process exactly when the hash
parser rejects the configured `InitTx`, and proceeds whenever it accepts. -/
theorem claim_C8_bad_inittx_aborts (parseHash : String → Option Hash)
    (config : Config) :
    NewAttestService parseHash config = none ↔
      parseHash config.initTx = none := by
  unfold NewAttestService
  cases hp : parseHash config.initTx <;> simp

/-- Claim C9: `setFailure` with nil leaves the service unchanged and
returns false, with a non-nil error it stores the error and sets
`ASTATE_ERROR`; and on every trace reachable from the initial service the
`Error` state always carries a non-nil stored error. -/
theorem claim_C9_error_nonnil :
    (∀ s : AttestService, setFailure s none = (s, false)) ∧
    (∀ (s : AttestService) (e : Err),
        setFailure s (some e) =
          ({ s with errorState := some e, state := ASTATE_ERROR }, true)) ∧
    (∀ (P : AttestParams) (regtest : Bool) (envs : List Env),
        (runTrace P (initialService regtest) envs).1.state = ASTATE_ERROR →
        (runTrace P (initialService regtest) envs).1.errorState ≠ none) := by
  refine ⟨fun s => rfl, fun s e => rfl, ?_⟩
  intro P regtest envs
  exact runTrace_errInv envs P (initialService regtest)
    (by intro hs; simp [initialService] at hs)

/-- Witness for C9: a one-tick trace whose mempool scan fails reaches the
`Error` state with a non-nil stored error. -/
theorem claim_C9_witness :
    (runTrace defaultParams (initialService false) [initFailEnv]).1.errorState ≠
      none :=
  claim_C9_error_nonnil.2.2 defaultParams false [initFailEnv] (by rfl)

/-- Counterexample to claim C10 as stated: with the store succeeding but
the wallet `GetRawTransaction` failing, the unconfirmed init handler does
NOT advance to `AwaitConfirmation` — the discarded error leaves a nil
pointer whose dereference crashes the process (state stays `Init`, a
`nilDeref` event is emitted), so the advance-on-wallet-error reading of
the claim is false. -/
theorem claim_C10_counterexample :
    walletErrEnv.getRawTransaction.2 = some "raw rpc error" ∧
    (stateInitUnconfirmed (initialService false) walletErrEnv 5).1.state =
      ASTATE_INIT ∧
    (stateInitUnconfirmed (initialService false) walletErrEnv 5).1.state ≠
      ASTATE_AWAIT_CONFIRMATION ∧
    Event.nilDeref ∈ (stateInitUnconfirmed (initialService false) walletErrEnv 5).2 := by
  decide

/-- Claim C10 (amended): in the init handlers for the unconfirmed and the
confirmed-unspent branches, wallet `GetRawTransaction` / `GetTransaction`
errors are discarded (blank identifier), so such errors never cause a
transition to `Error` — but instead of still populating the transaction
and advancing, the handler dereferences the nil result and the process
crashes, leaving state and error state untouched; only on wallet success
do the handlers populate the attestation's transaction and advance (to
`AwaitConfirmation`, resp. `NextCommitment`), and only store-read and
store-update errors move the driver to `Error`. -/
theorem claim_C10_wallet_error_crashes (s : AttestService) (env : Env)
    (txid : Hash) (u : Unspent) :
    (env.getAttestationCommitment.2 = none →
      (∀ e1, env.getRawTransaction.2 = some e1 →
        (stateInitUnconfirmed s env txid).1.state = s.state ∧
        (stateInitUnconfirmed s env txid).1.errorState = s.errorState ∧
        Event.nilDeref ∈ (stateInitUnconfirmed s env txid).2) ∧
      (env.getAttestationCommitment.1.getCommitmentHash ≠ 0 →
        (∀ e1, env.getRawTransaction.2 = some e1 →
          (stateInitUnspent s env u).1.state = s.state ∧
          (stateInitUnspent s env u).1.errorState = s.errorState ∧
          Event.nilDeref ∈ (stateInitUnspent s env u).2) ∧
        (env.getRawTransaction.2 = none →
          ∀ e2, env.getTransaction.2 = some e2 →
            (stateInitUnspent s env u).1.state = s.state ∧
            (stateInitUnspent s env u).1.errorState = s.errorState ∧
            Event.nilDeref ∈ (stateInitUnspent s env u).2))) ∧
    (env.getAttestationCommitment.2 = none →
      env.getRawTransaction.2 = none →
      ((stateInitUnconfirmed s env txid).1.state = ASTATE_AWAIT_CONFIRMATION ∧
        (stateInitUnconfirmed s env txid).1.attestation.tx =
          env.getRawTransaction.1) ∧
      (env.getAttestationCommitment.1.getCommitmentHash ≠ 0 →
        env.getTransaction.2 = none →
        env.updateLatestAttestation = none →
        (stateInitUnspent s env u).1.state = ASTATE_NEXT_COMMITMENT ∧
        (stateInitUnspent s env u).1.attestation.tx =
          env.getRawTransaction.1)) ∧
    (∀ e, env.getAttestationCommitment.2 = some e →
      (stateInitUnconfirmed s env txid).1.state = ASTATE_ERROR ∧
      (stateInitUnspent s env u).1.state = ASTATE_ERROR) ∧
    (env.getAttestationCommitment.2 = none →
      env.getAttestationCommitment.1.getCommitmentHash ≠ 0 →
      env.getRawTransaction.2 = none → env.getTransaction.2 = none →
      ∀ e, env.updateLatestAttestation = some e →
        (stateInitUnspent s env u).1.state = ASTATE_ERROR) := by
  refine ⟨?_, ?_, ?_, ?_⟩
  · intro hsto
    refine ⟨?_, ?_⟩
    · intro e1 hraw
      simp [stateInitUnconfirmed, hsto, hraw]
    · intro hne
      refine ⟨?_, ?_⟩
      · intro e1 hraw
        simp [stateInitUnspent, hsto, hne, hraw]
      · intro hraw e2 hwtx
        simp [stateInitUnspent, hsto, hne, hraw, hwtx]
  · intro hsto hraw
    constructor
    · simp [stateInitUnconfirmed, hsto, hraw, NewAttestation]
    · intro hne hwtx hupd
      simp [stateInitUnspent, hsto, hne, hraw, hwtx, hupd, setFailure,
        NewAttestation, Attestation.updateInfo]
  · intro e hsto
    constructor <;> simp [stateInitUnconfirmed, stateInitUnspent, hsto, setFailure]
  · intro hsto hne hraw hwtx e hupd
    simp [stateInitUnspent, hsto, hne, hraw, hwtx, hupd, setFailure]

/-- Witness for C10 (amended): concrete environments showing the crash on
a wallet error (no `Error` transition, state and error state untouched)
and the advance on wallet success. -/
theorem claim_C10_witness :
    ((stateInitUnconfirmed (initialService false) walletErrEnv 5).1.state =
        (initialService false).state ∧
      (stateInitUnconfirmed (initialService false) walletErrEnv 5).1.errorState =
        (initialService false).errorState ∧
      Event.nilDeref ∈ (stateInitUnconfirmed (initialService false) walletErrEnv 5).2) ∧
    ((stateInitUnspent (initialService false) getTxErrEnv { txid := 5 }).1.state =
        (initialService false).state ∧
      (stateInitUnspent (initialService false) getTxErrEnv { txid := 5 }).1.errorState =
        (initialService false).errorState ∧
      Event.nilDeref ∈
        (stateInitUnspent (initialService false) getTxErrEnv { txid := 5 }).2) ∧
    ((stateInitUnconfirmed (initialService false) storeOkEnv 5).1.state =
        ASTATE_AWAIT_CONFIRMATION ∧
      (stateInitUnconfirmed (initialService false) storeOkEnv 5).1.attestation.tx =
        storeOkEnv.getRawTransaction.1) ∧
    ((stateInitUnspent (initialService false) storeOkEnv { txid := 5 }).1.state =
        ASTATE_NEXT_COMMITMENT ∧
      (stateInitUnspent (initialService false) storeOkEnv { txid := 5 }).1.attestation.tx =
        storeOkEnv.getRawTransaction.1) :=
  ⟨((claim_C10_wallet_error_crashes (initialService false) walletErrEnv 5
      { txid := 5 }).1 (by rfl)).1 "raw rpc error" (by rfl),
   (((claim_C10_wallet_error_crashes (initialService false) getTxErrEnv 5
      { txid := 5 }).1 (by rfl)).2 (by decide)).2 (by rfl) "gettx rpc error" (by rfl),
   ((claim_C10_wallet_error_crashes (initialService false) storeOkEnv 5
      { txid := 5 }).2.1 (by rfl) (by rfl)).1,
   ((claim_C10_wallet_error_crashes (initialService false) storeOkEnv 5
      { txid := 5 }).2.1 (by rfl) (by rfl)).2 (by decide) (by rfl) (by rfl)⟩

end Mainstay
